import Mathlib

/-!
Verification of the ShopifyTiktokAI sync core against its specification.

The Python source is shallowly embedded: dictionaries become structures
(fields that the code reads with `.get(key, default)` are modelled as total
fields holding the default when absent, or `Option` when the code
distinguishes absence), exceptions become `Except Unit` / an explicit
`PyErr` type, the mutable mapper object becomes explicit state passing, and
the AI / HTTP transports become oracles indexed by an invocation counter so
that call counts are observable.
-/

deriving instance DecidableEq for Except

namespace ShopifyTiktokAI

/-- A Shopify variant dictionary, restricted to the keys the mapper reads
(`sku`, `title`, `price`, `inventory_quantity`, `barcode`); `price` is kept
as a string exactly as in the source. -/
structure Variant where
  sku : String
  title : String
  price : String
  inventory_quantity : Int
  barcode : String
deriving DecidableEq

/-- A Shopify product dictionary, restricted to the keys read anywhere in
`ai_mapper.py` (`id`, `title`, `description`, `product_type`, `vendor`,
`tags`, `images`, `variants`, `handle`) plus the bookkeeping timestamps of
the canonical model (`status`, `created_at`, `updated_at`), which no mapper
code reads. `.get(k, '')` accesses are modelled by total string fields. -/
structure ShopifyProduct where
  id : String
  title : String
  description : String
  product_type : String
  vendor : String
  tags : List String
  images : List String
  variants : List Variant
  handle : String
  status : String
  created_at : String
  updated_at : String
deriving DecidableEq

/-- The `key_data` dictionary built by `AIMapper._generate_cache_key`
(ai_mapper.py lines 49-55). The source serializes this dictionary with
`json.dumps(..., sort_keys=True)` and hashes it with md5; since canonical
JSON serialization of a fixed-key record is injective on the field values,
the embedding keeps the record itself as the fingerprint and abstracts the
injective encoding-plus-hash away (hash collisions are outside the model). -/
structure KeyData where
  id : String
  title : String
  description : String
  product_type : String
  tags : List String
deriving DecidableEq

/-- Python `sorted` on a list of strings (lexicographic by code point),
modelled with `List.insertionSort` under `String.le`. -/
def sortedTags (tags : List String) : List String :=
  tags.insertionSort (· ≤ ·)

/-- `AIMapper._generate_cache_key` (ai_mapper.py lines 38-57): the stable
fingerprint is derived from `(id, title, description[:100], product_type,
sorted(tags))`. -/
def generate_cache_key (p : ShopifyProduct) : KeyData :=
  { id := p.id
    title := p.title
    description := p.description.take 100
    product_type := p.product_type
    tags := sortedTags p.tags }

/-- A channel (TikTok) variant: the dictionary built from a Shopify variant
by both the AI path (ai_mapper.py lines 191-199) and the fallback path
(lines 246-255); the two build identical shapes. -/
structure ChannelVariant where
  sku : String
  title : String
  price : String
  inventory_quantity : Int
  barcode : String
deriving DecidableEq

/-- The per-variant dictionary copy performed in both mapping paths. -/
def toChannelVariant (v : Variant) : ChannelVariant :=
  { sku := v.sku
    title := v.title
    price := v.price
    inventory_quantity := v.inventory_quantity
    barcode := v.barcode }

/-- The TikTok product dictionary produced by `map_product` /
`_fallback_mapping`: keys `title`, `description`, `hashtags`, `images`,
`variants`, `_shopify_id`, `_shopify_handle`. -/
structure ChannelProduct where
  title : String
  description : String
  hashtags : List String
  images : List String
  variants : List ChannelVariant
  shopify_id : String
  shopify_handle : String
deriving DecidableEq

/-- The per-tag hashtag conversion in `_fallback_mapping` (ai_mapper.py
line 233): a tag already starting with `#` is kept as is; otherwise it is
stripped of surrounding whitespace, internal spaces are removed, and a `#`
is prefixed. -/
def toHashtag (tag : String) : String :=
  if tag.startsWith "#" then tag else "#" ++ (tag.trim.replace " " "")

/-- The default hashtag set used by the fallback when the product has no
tags (ai_mapper.py line 235). -/
def defaultHashtags : List String :=
  ["#TikTokMadeMeBuyIt", "#Trending", "#ShopNow"]

/-- `AIMapper._fallback_mapping` (ai_mapper.py lines 219-258): deterministic
non-AI transform, taking up to 5 tags as hashtags (or the default set) and
appending them to the description. -/
def fallback_mapping (p : ShopifyProduct) : ChannelProduct :=
  let hashtags0 := (p.tags.take 5).map toHashtag
  let hashtags := if hashtags0.isEmpty then defaultHashtags else hashtags0
  let description :=
    if hashtags.isEmpty then p.description
    else p.description ++ "\n\n" ++ String.intercalate " " hashtags
  { title := p.title
    description := description
    hashtags := hashtags
    images := p.images
    variants := p.variants.map toChannelVariant
    shopify_id := p.id
    shopify_handle := p.handle }

/-- The parsed JSON object returned by one successful AI exchange. Only the
keys `map_product` reads (`tiktok_title`, `tiktok_description`, `hashtags`)
are modelled; `.get(key, default)` on a possibly-absent key becomes
`Option.getD`. -/
structure AIResult where
  tiktok_title : Option String
  tiktok_description : Option String
  hashtags : Option (List String)
deriving DecidableEq

/-- The canned structured result returned by `_call_openai` in dry-run mode
(ai_mapper.py lines 72-78). The canned dictionary has keys `category`,
`hashtags`, `keywords`, `optimized_title`, `optimized_description`; of the
keys `map_product` reads, only `hashtags` is present. -/
def cannedResult : AIResult :=
  { tiktok_title := none
    tiktok_description := none
    hashtags := some ["#fashion", "#trending", "#y2k"] }

/-- The retry loop of `_call_openai` (ai_mapper.py lines 80-132). The
transport oracle is indexed by a global invocation counter `n`; each
consultation models one `chat.completions.create` call together with its
JSON parse, `Except.error` covering both an API failure and a parse failure
(the source retries and re-raises both identically). Returns the outcome
and the advanced counter. Fuel 0 corresponds to `max_retries = 0`, where
the Python loop body never runs. -/
def callAttempts (transport : Nat → Except Unit AIResult) :
    Nat → Nat → Except Unit AIResult × Nat
  | 0, n => (Except.error (), n)
  | fuel + 1, n =>
    match transport n with
    | Except.ok r => (Except.ok r, n + 1)
    | Except.error _ =>
      if fuel = 0 then (Except.error (), n + 1)
      else callAttempts transport fuel (n + 1)

/-- `AIMapper._call_openai` (ai_mapper.py lines 59-132): in dry-run mode it
returns the canned result without consulting the transport; otherwise it
retries the transport up to `max_retries` times and propagates the final
failure. -/
def call_openai (dry_run : Bool) (transport : Nat → Except Unit AIResult)
    (max_retries : Nat) (n : Nat) : Except Unit AIResult × Nat :=
  if dry_run then (Except.ok cannedResult, n)
  else callAttempts transport max_retries n

/-- Mutable state of an `AIMapper` object: the `dry_run` flag, the lazily
created `_cache` attribute (`none` models the attribute not existing yet),
and the cumulative number of AI transport invocations (the oracle cursor,
instrumentation for counting calls). -/
structure MapperState where
  dry_run : Bool
  cache : Option (List (KeyData × ChannelProduct))
  calls : Nat
deriving DecidableEq

/-- Lookup in the association-list model of the Python `_cache` dict. -/
def cacheLookup : List (KeyData × ChannelProduct) → KeyData → Option ChannelProduct
  | [], _ => none
  | (k', v) :: rest, k => if k' = k then some v else cacheLookup rest k

/-- Insertion/overwrite in the association-list model of the `_cache` dict. -/
def cacheInsert : List (KeyData × ChannelProduct) → KeyData → ChannelProduct →
    List (KeyData × ChannelProduct)
  | [], k, v => [(k, v)]
  | (k', v') :: rest, k, v =>
    if k' = k then (k, v) :: rest else (k', v') :: cacheInsert rest k v

/-- The cache check at the top of `map_product` (ai_mapper.py lines
149-152): `if use_cache and hasattr(self, '_cache') and cache_key in
self._cache`. -/
def cache_check (st : MapperState) (p : ShopifyProduct) (use_cache : Bool) :
    Option ChannelProduct :=
  if use_cache then st.cache.bind (fun c => cacheLookup c (generate_cache_key p))
  else none

/-- The TikTok product payload assembled on the AI success path
(ai_mapper.py lines 182-203), with `.get` defaults falling back to the
Shopify fields. -/
def buildTiktokProduct (p : ShopifyProduct) (ai : AIResult) : ChannelProduct :=
  { title := ai.tiktok_title.getD p.title
    description := ai.tiktok_description.getD p.description
    hashtags := ai.hashtags.getD []
    images := p.images
    variants := p.variants.map toChannelVariant
    shopify_id := p.id
    shopify_handle := p.handle }

/-- `AIMapper.map_product` (ai_mapper.py lines 134-217). The `Except`
result type records the function's position in the caller's exception
model: the `try` block's only fallible step is `_call_openai`, and the
`except Exception` handler (lines 214-217) maps its failure to
`Except.ok` of the fallback — so an `Except.error` outcome would mean an
exception propagating out of `map_product`. The result is cached only on
the AI success path and only when `use_cache` is set (lines 205-209). -/
def map_product (transport : Nat → Except Unit AIResult) (st : MapperState)
    (p : ShopifyProduct) (use_cache : Bool) :
    Except Unit (ChannelProduct × MapperState) :=
  match cache_check st p use_cache with
  | some v => Except.ok (v, st)
  | none =>
    match call_openai st.dry_run transport 3 st.calls with
    | (Except.ok ai, n') =>
      let tp := buildTiktokProduct p ai
      let st' :=
        if use_cache then
          { st with calls := n'
                    cache := some (cacheInsert (st.cache.getD []) (generate_cache_key p) tp) }
        else { st with calls := n' }
      Except.ok (tp, st')
    | (Except.error _, n') =>
      Except.ok (fallback_mapping p, { st with calls := n' })

/-- The loop body of `AIMapper.batch_map_products` (ai_mapper.py lines
272-285), abstracted over the per-product mapper `m` so that the guard
`except Exception: results.append(self._fallback_mapping(product))` is
exercised for an arbitrary fallible mapper. -/
def batch_map_go (m : MapperState → ShopifyProduct → Except Unit (ChannelProduct × MapperState)) :
    MapperState → List ShopifyProduct → List ChannelProduct × MapperState
  | st, [] => ([], st)
  | st, p :: ps =>
    match m st p with
    | Except.ok (c, st') =>
      let rest := batch_map_go m st' ps
      (c :: rest.1, rest.2)
    | Except.error _ =>
      let rest := batch_map_go m st ps
      (fallback_mapping p :: rest.1, rest.2)

/-- `AIMapper.batch_map_products` (ai_mapper.py lines 260-285),
instantiating the loop with the real `map_product`. -/
def batch_map_products (transport : Nat → Except Unit AIResult) (st : MapperState)
    (products : List ShopifyProduct) (use_cache : Bool) :
    List ChannelProduct × MapperState :=
  batch_map_go (fun s p => map_product transport s p use_cache) st products

/-- The mapper state reached after `batch_map_go` has processed the first
`i` products (the loop's intermediate state before iteration `i`). -/
def batch_state_at (m : MapperState → ShopifyProduct → Except Unit (ChannelProduct × MapperState)) :
    MapperState → List ShopifyProduct → Nat → MapperState
  | st, _, 0 => st
  | st, [], _ + 1 => st
  | st, p :: ps, i + 1 =>
    batch_state_at m
      (match m st p with
       | Except.ok (_, st') => st'
       | Except.error _ => st) ps i

/-- `AIMapper.clear_cache` (ai_mapper.py lines 287-291): empties the dict
in place when the attribute exists; a no-op otherwise. -/
def clear_cache (st : MapperState) : MapperState :=
  { st with cache := st.cache.map (fun _ => []) }

/-- One inventory update item (`sku`, `quantity`) as prepared by the
orchestrator and consumed by `bulk_update_inventory`. -/
structure InvUpdate where
  sku : String
  quantity : Int
deriving DecidableEq

/-- Recursion core of the batch slicing, structurally recursive on a fuel
argument so that it evaluates by kernel reduction; the fuel is initialized
to the list's length, which bounds the number of slices whenever the batch
size is positive (each slice consumes at least one element). -/
def chunkListGo (bs : Nat) : Nat → List α → List (List α)
  | 0, _ => []
  | _, [] => []
  | fuel + 1, x :: xs =>
    if bs = 0 then []
    else (x :: xs).take bs :: chunkListGo bs fuel ((x :: xs).drop bs)

/-- The batch slicing `lst[i:i + batch_size]` for `i in range(0, len(lst),
batch_size)` (tiktok_handler.py lines 222-223 and 318-319). The guard on
`bs = 0` is never exercised by the source (`BATCH_SIZE` defaults to 100;
Python's `range` would reject a zero step). -/
def chunkList (bs : Nat) (l : List α) : List (List α) :=
  chunkListGo bs l.length l

/-- The chunk loop of `TikTokHandler.bulk_update_inventory`
(tiktok_handler.py lines 217-255). The oracle gives, per chunk index, the
outcome of the retried `/inventory/bulk_update` request: `Except.error`
models the request raising (caught by the enclosing `except`, which
returns `False`), `Except.ok c` a response whose `code` field is `c`. A
non-zero code returns `False` immediately. The second component is the
trace of chunk indices for which a request was issued. -/
def bulk_update_go (respond : Nat → Except Unit Int) :
    List (List InvUpdate) → Nat → Bool × List Nat
  | [], _ => (true, [])
  | _ :: rest, k =>
    match respond k with
    | Except.error _ => (false, [k])
    | Except.ok c =>
      if c ≠ 0 then (false, [k])
      else
        let r := bulk_update_go respond rest (k + 1)
        (r.1, k :: r.2)

/-- `TikTokHandler.bulk_update_inventory` (tiktok_handler.py lines
199-255): mock/dry-run mode returns `True` with no requests; live mode
chunks by `BATCH_SIZE` and fails fast. -/
def bulk_update_inventory (mock_mode dry_run : Bool) (bs : Nat)
    (respond : Nat → Except Unit Int) (updates : List InvUpdate) : Bool × List Nat :=
  if mock_mode || dry_run then (true, [])
  else bulk_update_go respond (chunkList bs updates) 0

/-- One entry of a bulk-create response's `data.results` list: the
`success` flag and the (possibly absent) `product_id`. -/
structure ItemResult where
  success : Bool
  product_id : Option String
deriving DecidableEq

/-- A `/products/bulk_create` response: its `code` and its
`data.results` list (empty when the key is absent). -/
structure CreateResponse where
  code : Int
  results : List ItemResult
deriving DecidableEq

/-- The `results` accumulator dictionary of `bulk_create_products`
(tiktok_handler.py lines 297-301). -/
structure BulkResults where
  success : Nat
  failed : Nat
  product_ids : List (Option String)
deriving DecidableEq

/-- The inner loop over a successful chunk response's `results`
(tiktok_handler.py lines 336-343): each per-item success increments
`success` and appends its id, each per-item failure increments `failed`. -/
def apply_chunk_results : List ItemResult → BulkResults → BulkResults
  | [], acc => acc
  | r :: rs, acc =>
    apply_chunk_results rs
      (if r.success then
        { acc with success := acc.success + 1, product_ids := acc.product_ids ++ [r.product_id] }
      else { acc with failed := acc.failed + 1 })

/-- The chunk loop of `TikTokHandler.bulk_create_products`
(tiktok_handler.py lines 313-354). A chunk whose response has non-zero
`code` adds the chunk's size to `failed` and processing continues; a chunk
whose request raises is caught by the enclosing `except`, which adds
`len(products)` (the whole input length, per the source) to `failed` and
returns at once. The second component is the trace of issued chunk
indices. -/
def bulk_create_go (respond : Nat → Except Unit CreateResponse) (totalLen : Nat) :
    List (List ChannelProduct) → Nat → BulkResults → BulkResults × List Nat
  | [], _, acc => (acc, [])
  | chunk :: rest, k, acc =>
    match respond k with
    | Except.error _ => ({ acc with failed := acc.failed + totalLen }, [k])
    | Except.ok resp =>
      let acc' :=
        if resp.code = 0 then apply_chunk_results resp.results acc
        else { acc with failed := acc.failed + chunk.length }
      let r := bulk_create_go respond totalLen rest (k + 1) acc'
      (r.1, k :: r.2)

/-- The synthetic id list `['mock_id_' + str(i) for i in
range(len(products))]` (tiktok_handler.py line 310). -/
def mockIds (n : Nat) : List (Option String) :=
  (List.range n).map (fun i => some ("mock_id_" ++ toString i))

/-- `TikTokHandler.bulk_create_products` (tiktok_handler.py lines 287-354):
mock/dry-run mode reports every product as a success with synthetic ids and
no requests; live mode chunks by `BATCH_SIZE` fail-soft. -/
def bulk_create_products (mock_mode dry_run : Bool) (bs : Nat)
    (respond : Nat → Except Unit CreateResponse) (products : List ChannelProduct) :
    BulkResults × List Nat :=
  if mock_mode || dry_run then
    ({ success := products.length, failed := 0, product_ids := mockIds products.length }, [])
  else bulk_create_go respond products.length (chunkList bs products) 0 ⟨0, 0, []⟩

/-- `MOCK_MODE` in config.py line 44: true when the TikTok app key is empty
(falsy) or does not start with `app_`. `os.getenv('TIKTOK_APP_KEY', '')`
always yields a string, so absence is the empty string. -/
def config_mock_mode (app_key : String) : Bool :=
  app_key = "" || !(app_key.startsWith "app_")

/-- The handler's mock-mode decision (tiktok_handler.py line 33):
`Config.MOCK_MODE or not self.app_key or not
self.app_key.startswith('app_')`. -/
def handler_mock_mode (app_key : String) : Bool :=
  config_mock_mode app_key || app_key = "" || !(app_key.startsWith "app_")

/-- The Python exception classes distinguished by the retry wrappers:
`ValueError` (raised by the Shopify request layer to classify an
authentication/configuration failure), an HTTP error carrying a status
code (status `0` standing for an `HTTPError` without an attached
response), and any other exception. -/
inductive PyErr where
  | valueError : PyErr
  | httpError : Nat → PyErr
  | otherError : PyErr
deriving DecidableEq

/-- The wrapped-call loop of `ShopifyHandler._retry_request`
(shopify_handler.py lines 137-171), fuel counting remaining attempts and
the second result component counting invocations of the wrapped call. A
`ValueError` or an HTTP 401/403 is re-raised immediately without retry;
every other failure retries until the attempt ceiling, then re-raises. -/
def shopifyRetryGo (op : Nat → Except PyErr α) :
    Nat → Nat → Except PyErr α × Nat
  | 0, k => (Except.error PyErr.otherError, k)
  | fuel + 1, k =>
    match op k with
    | Except.ok a => (Except.ok a, k + 1)
    | Except.error PyErr.valueError => (Except.error PyErr.valueError, k + 1)
    | Except.error (PyErr.httpError s) =>
      if s = 401 || s = 403 then (Except.error (PyErr.httpError s), k + 1)
      else if fuel = 0 then (Except.error (PyErr.httpError s), k + 1)
      else shopifyRetryGo op fuel (k + 1)
    | Except.error PyErr.otherError =>
      if fuel = 0 then (Except.error PyErr.otherError, k + 1)
      else shopifyRetryGo op fuel (k + 1)

/-- `ShopifyHandler._retry_request` with `Config.MAX_RETRIES` attempts. -/
def shopify_retry_request (op : Nat → Except PyErr α) (max_retries : Nat) :
    Except PyErr α × Nat :=
  shopifyRetryGo op max_retries 0

/-- The wrapped-call loop of `TikTokHandler._retry_request`
(tiktok_handler.py lines 134-155): every exception, of any class, retries
until the attempt ceiling, then re-raises. -/
def tiktokRetryGo (op : Nat → Except PyErr α) :
    Nat → Nat → Except PyErr α × Nat
  | 0, k => (Except.error PyErr.otherError, k)
  | fuel + 1, k =>
    match op k with
    | Except.ok a => (Except.ok a, k + 1)
    | Except.error e =>
      if fuel = 0 then (Except.error e, k + 1)
      else tiktokRetryGo op fuel (k + 1)

/-- `TikTokHandler._retry_request` with `Config.MAX_RETRIES` attempts. -/
def tiktok_retry_request (op : Nat → Except PyErr α) (max_retries : Nat) :
    Except PyErr α × Nat :=
  tiktokRetryGo op max_retries 0

/-- The 401/403 classification step of `ShopifyHandler._make_shopify_request`
(shopify_handler.py lines 119-135): an HTTP 401/403 failure is converted
into a `ValueError` before it reaches the retry wrapper; every other
outcome passes through unchanged. -/
def shopifyClassifyResponse (raw : Except PyErr α) : Except PyErr α :=
  match raw with
  | Except.error (PyErr.httpError s) =>
    if s = 401 || s = 403 then Except.error PyErr.valueError
    else Except.error (PyErr.httpError s)
  | x => x

/-- The `results` record returned by `sync_inventory` and `sync_orders`
(main.py lines 72-76 and 177-181). -/
structure SyncResult where
  success : Nat
  failed : Nat
  total : Nat
deriving DecidableEq

/-- One inventory level as returned by the upstream client: `sku` (the
empty string models a missing or falsy key, which `if not sku: continue`
skips) and `available` (defaulting to 0). -/
structure InvLevel where
  sku : String
  available : Int
deriving DecidableEq

/-- `SyncBot.sync_inventory` (main.py lines 64-115). The fetch phase is an
`Except`-valued oracle (an exception escaping `get_inventory_levels`);
everything after it is total in the source (`bulk_update_inventory`
catches its own exceptions and returns a `bool`, here the `bulk`
parameter). The `except` handler sets `failed := results.get('total', 0)`;
when the fetch raised, `total` is still its initial 0. -/
def sync_inventory (fetch : Except Unit (List InvLevel))
    (bulk : List InvUpdate → Bool) : SyncResult :=
  match fetch with
  | Except.error _ => { success := 0, failed := 0, total := 0 }
  | Except.ok levels =>
    let total := levels.length
    if levels.isEmpty then { success := 0, failed := 0, total := total }
    else
      let updates := (levels.filter (fun l => l.sku ≠ "")).map
        (fun l => ({ sku := l.sku, quantity := l.available } : InvUpdate))
      if updates.isEmpty then { success := 0, failed := 0, total := total }
      else if bulk updates then { success := updates.length, failed := 0, total := total }
      else { success := 0, failed := updates.length, total := total }

/-- The `results` record returned by `sync_products` (main.py lines
128-133). -/
structure ProductSyncResult where
  success : Nat
  failed : Nat
  total : Nat
  product_ids : List (Option String)
deriving DecidableEq

/-- `SyncBot.sync_products` (main.py lines 117-167). The fetch phase is an
`Except`-valued oracle; the mapping phase is the embedded
`batch_map_products` (which the source relies on never to raise); the push
phase is a total `create` function (`bulk_create_products` catches its own
exceptions). On a fetch exception, the `except` handler sets `failed :=
results.get('total', 0)`, which is still 0. -/
def sync_products (fetch : Except Unit (List ShopifyProduct)) (limit : Option Nat)
    (transport : Nat → Except Unit AIResult) (st : MapperState)
    (create : List ChannelProduct → BulkResults) : ProductSyncResult :=
  match fetch with
  | Except.error _ => { success := 0, failed := 0, total := 0, product_ids := [] }
  | Except.ok fetched =>
    let products := match limit with
      | some n => fetched.take n
      | none => fetched
    let total := products.length
    if products.isEmpty then { success := 0, failed := 0, total := total, product_ids := [] }
    else
      let tiktok_products := (batch_map_products transport st products true).1
      let cr := create tiktok_products
      { success := cr.success, failed := cr.failed, total := total,
        product_ids := cr.product_ids }

/-- A TikTok order as read by `sync_orders`: only `order_id` and
`line_items` are accessed (and only logged). -/
structure Order where
  order_id : String
  line_items : List String
deriving DecidableEq

/-- `SyncBot.sync_orders` (main.py lines 169-218). The fetch phase is an
`Except`-valued oracle. The per-order body (lines 196-210) is abstracted
as the fallible oracle `proc` — in the source it only logs, but the inner
`try`/`except` guards it, converting a failure into a `failed` increment
instead of a raise. -/
def sync_orders (fetch : Except Unit (List Order))
    (proc : Order → Except Unit Unit) : SyncResult :=
  match fetch with
  | Except.error _ => { success := 0, failed := 0, total := 0 }
  | Except.ok orders =>
    let total := orders.length
    if orders.isEmpty then { success := 0, failed := 0, total := total }
    else
      let counts := orders.foldl
        (fun (acc : Nat × Nat) o =>
          match proc o with
          | Except.ok _ => (acc.1 + 1, acc.2)
          | Except.error _ => (acc.1, acc.2 + 1)) (0, 0)
      { success := counts.1, failed := counts.2, total := total }

/-! Concrete sample data used by witnesses and counterexamples. -/

/-- A small concrete Shopify product. -/
def sampleProduct : ShopifyProduct :=
  { id := "1"
    title := "Tee"
    description := "Soft tee"
    product_type := "Fashion"
    vendor := "V"
    tags := []
    images := []
    variants := []
    handle := "tee"
    status := "active"
    created_at := "2024-01-01"
    updated_at := "2024-06-01" }

/-- An AI transport that fails on every invocation. -/
def failTransport : Nat → Except Unit AIResult := fun _ => Except.error ()

/-- A fresh dry-run mapper state. -/
def dryState : MapperState := ⟨true, none, 0⟩

/-- A concrete product with tags `["y2k", "trend"]`. -/
def p_y2k : ShopifyProduct := { sampleProduct with id := "p1", tags := ["y2k", "trend"] }

/-- A concrete product with no tags. -/
def p_notags : ShopifyProduct := { sampleProduct with id := "p2", tags := [] }

/-- The total number of AI transport invocations performed by two
successive `map_product` calls with `use_cache = true` (the difference of
the instrumentation counter across the pair). -/
def totalTransportCalls (transport : Nat → Except Unit AIResult) (st : MapperState)
    (p q : ShopifyProduct) : Nat :=
  match map_product transport st p true with
  | Except.ok (_, st₁) =>
    match map_product transport st₁ q true with
    | Except.ok (_, st₂) => st₂.calls - st.calls
    | Except.error _ => st₁.calls - st.calls
  | Except.error _ => 0

/-- The cache entry stored under `fingerprint p` after one `map_product`
call returns. -/
def cache_after_map (transport : Nat → Except Unit AIResult) (st : MapperState)
    (p : ShopifyProduct) (use_cache : Bool) : Option ChannelProduct :=
  match map_product transport st p use_cache with
  | Except.ok (_, st') => cacheLookup (st'.cache.getD []) (generate_cache_key p)
  | Except.error _ => none

/-- The number of per-item successes a chunk's response contributes to the
`bulk_create_products` accumulator: the successful entries of its
`results` when its `code` is 0, nothing otherwise. -/
def createSuccContrib (resp : CreateResponse) : Nat :=
  if resp.code = 0 then (resp.results.filter (fun r => r.success)).length else 0

/-- The number of failures a chunk's response contributes to the
`bulk_create_products` accumulator: its failed `results` entries when its
`code` is 0, the whole chunk's size otherwise. -/
def createFailContrib (resp : CreateResponse) (chunkLen : Nat) : Nat :=
  if resp.code = 0 then (resp.results.filter (fun r => !r.success)).length else chunkLen

/-! Helper lemmas shared across claims. -/

theorem sortedTags_perm_eq {l1 l2 : List String} (h : l1.Perm l2) :
    sortedTags l1 = sortedTags l2 :=
  List.eq_of_perm_of_sorted
    (((List.perm_insertionSort _ l1).trans h).trans (List.perm_insertionSort _ l2).symm)
    (List.sorted_insertionSort _ _) (List.sorted_insertionSort _ _)

/-! Claim theorems. -/

/-- C6: the fingerprint is a deterministic function of exactly
`(id, title, description[:100], product_type, sorted(tags))`: it is stable
across repeated calls; products agreeing on that subset (in particular
products differing only in fields outside it, or whose tag sequences are
permutations of each other) share a fingerprint; an explicit `updated_at`
change never affects it; and a changed title changes it. -/
theorem C6_fingerprint_function_of_stable_subset (p q : ShopifyProduct) (t' u : String)
    (hid : p.id = q.id) (hti : p.title = q.title)
    (hd : p.description.take 100 = q.description.take 100)
    (hpt : p.product_type = q.product_type)
    (htags : p.tags.Perm q.tags)
    (ht' : t' ≠ p.title) :
    generate_cache_key p = generate_cache_key p ∧
    generate_cache_key p = generate_cache_key q ∧
    generate_cache_key { p with updated_at := u } = generate_cache_key p ∧
    generate_cache_key { p with title := t' } ≠ generate_cache_key p := by
  refine ⟨rfl, ?_, rfl, ?_⟩
  · simp only [generate_cache_key, hid, hti, hd, hpt, sortedTags_perm_eq htags]
  · intro h
    exact ht' (congrArg KeyData.title h)

/-- Witness for C6 at concrete products differing only in vendor, the
description past its 100th character, timestamps, and tag order. -/
theorem C6_witness :
    generate_cache_key { sampleProduct with tags := ["y2k", "trend"] } =
      generate_cache_key { sampleProduct with tags := ["y2k", "trend"] } ∧
    generate_cache_key { sampleProduct with tags := ["y2k", "trend"] } =
      generate_cache_key { sampleProduct with vendor := "W", tags := ["trend", "y2k"] } ∧
    generate_cache_key { sampleProduct with tags := ["y2k", "trend"], updated_at := "2025-01-01" } =
      generate_cache_key { sampleProduct with tags := ["y2k", "trend"] } ∧
    generate_cache_key { sampleProduct with tags := ["y2k", "trend"], title := "Hoodie" } ≠
      generate_cache_key { sampleProduct with tags := ["y2k", "trend"] } :=
  C6_fingerprint_function_of_stable_subset { sampleProduct with tags := ["y2k", "trend"] }
    { sampleProduct with vendor := "W", tags := ["trend", "y2k"] } "Hoodie" "2025-01-01"
    rfl rfl rfl rfl (by decide) (by decide)

/-- C2: `map_product` never fails: for every transport behaviour, mapper
state, product and `use_cache` flag it returns `Except.ok` (the
`except Exception` handler catches the only fallible step), and whenever
the AI call — after exhausting its parse/call retries — fails on a cache
miss, the returned value is exactly the deterministic fallback mapping. -/
theorem C2_map_product_never_fails (transport : Nat → Except Unit AIResult)
    (st : MapperState) (p : ShopifyProduct) (use_cache : Bool) :
    (∃ out st', map_product transport st p use_cache = Except.ok (out, st')) ∧
    (cache_check st p use_cache = none →
      (call_openai st.dry_run transport 3 st.calls).1 = Except.error () →
      map_product transport st p use_cache =
        Except.ok (fallback_mapping p,
          { st with calls := (call_openai st.dry_run transport 3 st.calls).2 })) := by
  constructor
  · unfold map_product
    cases hc : cache_check st p use_cache with
    | some v => exact ⟨v, st, rfl⟩
    | none =>
      cases hco : call_openai st.dry_run transport 3 st.calls with
      | mk r n' =>
        cases r with
        | ok ai => exact ⟨_, _, rfl⟩
        | error e => exact ⟨_, _, rfl⟩
  · intro h1 h2
    unfold map_product
    rw [h1]
    cases hco : call_openai st.dry_run transport 3 st.calls with
    | mk r n' =>
      rw [hco] at h2
      cases r with
      | ok ai => simp at h2
      | error e => simp [hco]

/-- Witness for C2 at a concrete state, product and always-failing
transport: the cache misses, the AI call errors, and `map_product`
returns the fallback mapping. -/
theorem C2_witness :
    cache_check ⟨false, none, 0⟩ sampleProduct true = none ∧
    (call_openai false failTransport 3 0).1 = Except.error () ∧
    map_product failTransport ⟨false, none, 0⟩ sampleProduct true =
      Except.ok (fallback_mapping sampleProduct,
        { dry_run := false, cache := none, calls := (call_openai false failTransport 3 0).2 }) :=
  ⟨rfl, rfl,
    (C2_map_product_never_fails failTransport ⟨false, none, 0⟩ sampleProduct true).2
      rfl rfl⟩

theorem batch_map_go_length
    (m : MapperState → ShopifyProduct → Except Unit (ChannelProduct × MapperState))
    (st : MapperState) (ps : List ShopifyProduct) :
    (batch_map_go m st ps).1.length = ps.length := by
  induction ps generalizing st with
  | nil => rfl
  | cons p ps ih =>
    cases h : m st p with
    | ok v => simp [batch_map_go, h, ih]
    | error e => simp [batch_map_go, h, ih]

theorem batch_map_go_error_slot
    (m : MapperState → ShopifyProduct → Except Unit (ChannelProduct × MapperState))
    (st : MapperState) (ps : List ShopifyProduct) (i : Nat) (p : ShopifyProduct)
    (hp : ps[i]? = some p)
    (he : m (batch_state_at m st ps i) p = Except.error ()) :
    (batch_map_go m st ps).1[i]? = some (fallback_mapping p) := by
  induction ps generalizing st i with
  | nil => simp at hp
  | cons q qs ih =>
    cases i with
    | zero =>
      have hq : q = p := by simpa using hp
      subst hq
      have he' : m st q = Except.error () := he
      simp [batch_map_go, he']
    | succ j =>
      simp only [List.getElem?_cons_succ] at hp
      cases hq : m st q with
      | ok v =>
        have hs : batch_state_at m st (q :: qs) (j + 1) = batch_state_at m v.2 qs j := by
          simp [batch_state_at, hq]
        rw [hs] at he
        simpa [batch_map_go, hq] using ih v.2 j hp he
      | error e =>
        have hs : batch_state_at m st (q :: qs) (j + 1) = batch_state_at m st qs j := by
          simp [batch_state_at, hq]
        rw [hs] at he
        simpa [batch_map_go, hq] using ih st j hp he

/-- C4: `batch_map_products` returns exactly one result per input product,
in input order, for every transport, state and `use_cache` flag; and at
the level of the batch loop over an arbitrary (possibly raising)
per-product mapper `m`, a product whose mapping raises is replaced in its
own position by its fallback mapping rather than omitted. -/
theorem C4_batch_order_count_preserved
    (m : MapperState → ShopifyProduct → Except Unit (ChannelProduct × MapperState))
    (transport : Nat → Except Unit AIResult) (st : MapperState)
    (ps : List ShopifyProduct) (use_cache : Bool) :
    (batch_map_products transport st ps use_cache).1.length = ps.length ∧
    (batch_map_go m st ps).1.length = ps.length ∧
    (∀ i p, ps[i]? = some p →
      m (batch_state_at m st ps i) p = Except.error () →
      (batch_map_go m st ps).1[i]? = some (fallback_mapping p)) :=
  ⟨batch_map_go_length _ st ps, batch_map_go_length m st ps,
    fun i p hp he => batch_map_go_error_slot m st ps i p hp he⟩

/-- Witness for C4: a three-product batch whose mapper raises on the middle
product keeps three slots, the middle one holding that product's
fallback. -/
theorem C4_witness :
    (batch_map_products failTransport ⟨false, none, 0⟩
      [sampleProduct, { sampleProduct with id := "2" }, { sampleProduct with id := "3" }]
      true).1.length = 3 ∧
    (batch_map_go (fun st p => if p.id = "2" then Except.error () else map_product failTransport st p true)
      ⟨false, none, 0⟩
      [sampleProduct, { sampleProduct with id := "2" }, { sampleProduct with id := "3" }]).1[1]? =
      some (fallback_mapping { sampleProduct with id := "2" }) := by
  have h := C4_batch_order_count_preserved
    (fun st p => if p.id = "2" then Except.error () else map_product failTransport st p true)
    failTransport ⟨false, none, 0⟩
    [sampleProduct, { sampleProduct with id := "2" }, { sampleProduct with id := "3" }] true
  exact ⟨h.1, h.2.2 1 { sampleProduct with id := "2" } rfl (by decide)⟩

theorem bulk_update_go_fail_fast (respond : Nat → Except Unit Int)
    (chunks : List (List InvUpdate)) (k j : Nat) (cj : Int)
    (hj : j < chunks.length)
    (hfail : respond (k + j) = Except.ok cj) (hcj : cj ≠ 0)
    (hmin : ∀ i, i < j → respond (k + i) = Except.ok 0) :
    bulk_update_go respond chunks k = (false, List.range' k (j + 1)) := by
  induction chunks generalizing k j with
  | nil => simp at hj
  | cons c cs ih =>
    cases j with
    | zero =>
      have h0 : respond k = Except.ok cj := by simpa using hfail
      simp [bulk_update_go, h0, hcj, List.range'_succ]
    | succ j' =>
      have h0 : respond k = Except.ok 0 := by simpa using hmin 0 (Nat.succ_pos j')
      have hrec : bulk_update_go respond cs (k + 1) = (false, List.range' (k + 1) (j' + 1)) := by
        refine ih (k + 1) j' (by simpa using hj) ?_ ?_
        · simpa [Nat.add_assoc, Nat.add_comm 1 j'] using hfail
        · intro i hi
          simpa [Nat.add_assoc, Nat.add_comm 1 i] using hmin (i + 1) (by omega)
      simp [bulk_update_go, h0, hrec, List.range'_succ]

theorem apply_chunk_results_counts (rs : List ItemResult) (acc : BulkResults) :
    (apply_chunk_results rs acc).success
        = acc.success + (rs.filter (fun r => r.success)).length ∧
    (apply_chunk_results rs acc).failed
        = acc.failed + (rs.filter (fun r => !r.success)).length := by
  induction rs generalizing acc with
  | nil => simp [apply_chunk_results]
  | cons r rs ih =>
    cases hr : r.success with
    | true =>
      have h := ih { acc with success := acc.success + 1,
                              product_ids := acc.product_ids ++ [r.product_id] }
      constructor
      · simp [apply_chunk_results, hr, h.1, List.filter]
        omega
      · simp [apply_chunk_results, hr, h.2, List.filter]
    | false =>
      have h := ih { acc with failed := acc.failed + 1 }
      constructor
      · simp [apply_chunk_results, hr, h.1, List.filter]
      · simp [apply_chunk_results, hr, h.2, List.filter]
        omega

theorem bulk_create_go_fail_soft (respond : Nat → Except Unit CreateResponse)
    (resp : Nat → CreateResponse) (hresp : ∀ n, respond n = Except.ok (resp n))
    (totalLen : Nat) (chunks : List (List ChannelProduct)) (k : Nat) (acc : BulkResults) :
    (bulk_create_go respond totalLen chunks k acc).2 = List.range' k chunks.length ∧
    (bulk_create_go respond totalLen chunks k acc).1.success
        = acc.success + ((List.range' k chunks.length).map
            (fun i => createSuccContrib (resp i))).sum ∧
    (bulk_create_go respond totalLen chunks k acc).1.failed
        = acc.failed + ((chunks.zipWith
            (fun ch i => createFailContrib (resp i) ch.length)
            (List.range' k chunks.length)).sum) := by
  induction chunks generalizing k acc with
  | nil => simp [bulk_create_go]
  | cons c cs ih =>
    have hk := hresp k
    by_cases hc : (resp k).code = 0
    · have h := ih (k + 1) (apply_chunk_results (resp k).results acc)
      have ha := apply_chunk_results_counts (resp k).results acc
      refine ⟨?_, ?_, ?_⟩
      · simp [bulk_create_go, hk, hc, List.range'_succ, h.1]
      · simp [bulk_create_go, hk, hc, List.range'_succ, h.2.1, ha.1,
          createSuccContrib, Nat.add_assoc]
      · simp [bulk_create_go, hk, hc, List.range'_succ, h.2.2, ha.2,
          createFailContrib, Nat.add_assoc]
    · have h := ih (k + 1) { acc with failed := acc.failed + c.length }
      refine ⟨?_, ?_, ?_⟩
      · simp [bulk_create_go, hk, hc, List.range'_succ, h.1]
      · simp [bulk_create_go, hk, hc, List.range'_succ, h.2.1, createSuccContrib]
      · simp [bulk_create_go, hk, hc, List.range'_succ, h.2.2, createFailContrib,
          Nat.add_assoc]

/-- C1: bulk mutation asymmetry in live mode. When the response for chunk
`j` signals failure (non-zero code) and all earlier chunks succeed,
`bulk_update_inventory` returns `false` having issued requests exactly for
chunks `0..j` — no later chunk is attempted. For any exception-free
response sequence, `bulk_create_products` issues a request for every
chunk, its failure count is the sum over all chunks of the chunk's size
(when that chunk's response signals failure) or of its per-item failures,
and its success count sums every chunk's per-item successes. -/
theorem C1_bulk_mutation_asymmetry
    (bs : Nat) (updates : List InvUpdate) (respondI : Nat → Except Unit Int)
    (j : Nat) (cj : Int) (hj : j < (chunkList bs updates).length)
    (hfail : respondI j = Except.ok cj) (hcj : cj ≠ 0)
    (hmin : ∀ i, i < j → respondI i = Except.ok 0)
    (products : List ChannelProduct) (respondC : Nat → Except Unit CreateResponse)
    (resp : Nat → CreateResponse) (hresp : ∀ n, respondC n = Except.ok (resp n)) :
    bulk_update_inventory false false bs respondI updates
        = (false, List.range' 0 (j + 1)) ∧
    (bulk_create_products false false bs respondC products).2
        = List.range' 0 (chunkList bs products).length ∧
    (bulk_create_products false false bs respondC products).1.success
        = ((List.range' 0 (chunkList bs products).length).map
            (fun i => createSuccContrib (resp i))).sum ∧
    (bulk_create_products false false bs respondC products).1.failed
        = (((chunkList bs products).zipWith
            (fun ch i => createFailContrib (resp i) ch.length)
            (List.range' 0 (chunkList bs products).length)).sum) := by
  have hu : bulk_update_inventory false false bs respondI updates
      = bulk_update_go respondI (chunkList bs updates) 0 := rfl
  have hcr : bulk_create_products false false bs respondC products
      = bulk_create_go respondC products.length (chunkList bs products) 0 ⟨0, 0, []⟩ := rfl
  have h1 := bulk_update_go_fail_fast respondI (chunkList bs updates) 0 j cj hj
    (by simpa using hfail) hcj (by simpa using hmin)
  have h2 := bulk_create_go_fail_soft respondC resp hresp products.length
    (chunkList bs products) 0 ⟨0, 0, []⟩
  rw [hu, hcr]
  exact ⟨h1, h2.1, by simpa using h2.2.1, by simpa using h2.2.2⟩

/-- Witness for C1 with batch size 1: three inventory chunks whose second
fails stop after two requests; three product chunks whose second fails
still issue all three requests, counting the other chunks' successes. -/
theorem C1_witness :
    bulk_update_inventory false false 1
      (fun n => if n = 0 then Except.ok 0 else Except.ok 1)
      [⟨"s1", 1⟩, ⟨"s2", 2⟩, ⟨"s3", 3⟩] = (false, [0, 1]) ∧
    (bulk_create_products false false 1
      (fun n => Except.ok (if n = 1 then ⟨1, []⟩ else ⟨0, [⟨true, some "x"⟩]⟩))
      [⟨"t", "d", [], [], [], "1", "h"⟩, ⟨"t", "d", [], [], [], "2", "h"⟩,
       ⟨"t", "d", [], [], [], "3", "h"⟩]).2 = [0, 1, 2] ∧
    (bulk_create_products false false 1
      (fun n => Except.ok (if n = 1 then ⟨1, []⟩ else ⟨0, [⟨true, some "x"⟩]⟩))
      [⟨"t", "d", [], [], [], "1", "h"⟩, ⟨"t", "d", [], [], [], "2", "h"⟩,
       ⟨"t", "d", [], [], [], "3", "h"⟩]).1.success = 2 ∧
    (bulk_create_products false false 1
      (fun n => Except.ok (if n = 1 then ⟨1, []⟩ else ⟨0, [⟨true, some "x"⟩]⟩))
      [⟨"t", "d", [], [], [], "1", "h"⟩, ⟨"t", "d", [], [], [], "2", "h"⟩,
       ⟨"t", "d", [], [], [], "3", "h"⟩]).1.failed = 1 := by
  have h := C1_bulk_mutation_asymmetry 1
    [⟨"s1", 1⟩, ⟨"s2", 2⟩, ⟨"s3", 3⟩]
    (fun n => if n = 0 then Except.ok 0 else Except.ok 1)
    1 1 (by decide) (by decide) (by decide) (by decide)
    [⟨"t", "d", [], [], [], "1", "h"⟩, ⟨"t", "d", [], [], [], "2", "h"⟩,
     ⟨"t", "d", [], [], [], "3", "h"⟩]
    (fun n => Except.ok (if n = 1 then ⟨1, []⟩ else ⟨0, [⟨true, some "x"⟩]⟩))
    (fun n => if n = 1 then ⟨1, []⟩ else ⟨0, [⟨true, some "x"⟩]⟩)
    (fun _ => rfl)
  refine ⟨by rw [h.1]; decide, by rw [h.2.1]; decide,
    by rw [h.2.2.1]; decide, by rw [h.2.2.2]; decide⟩

theorem sync_orders_fold_counts (proc : Order → Except Unit Unit)
    (orders : List Order) (a b : Nat) :
    (orders.foldl
      (fun (acc : Nat × Nat) o =>
        match proc o with
        | Except.ok _ => (acc.1 + 1, acc.2)
        | Except.error _ => (acc.1, acc.2 + 1)) (a, b)).1
      + (orders.foldl
      (fun (acc : Nat × Nat) o =>
        match proc o with
        | Except.ok _ => (acc.1 + 1, acc.2)
        | Except.error _ => (acc.1, acc.2 + 1)) (a, b)).2
      = a + b + orders.length := by
  induction orders generalizing a b with
  | nil => simp
  | cons o os ih =>
    cases h : proc o with
    | ok v => simp [h, ih (a + 1) b]; omega
    | error e => simp [h, ih a (b + 1)]; omega

/-- C3: accounting of the orchestrator's three public operations. Each is a
total function of its oracles (the source catches every exception at the
top of the operation); when the fetch phase raises, the returned record
satisfies `failed = total` (both still 0, the fetch having raised before
`total` was assigned); and `sync_orders` per-item outcomes only move the
`success`/`failed` counters, which always sum to `total`. -/
theorem C3_sync_operations_never_raise
    (fi : Except Unit (List InvLevel)) (bulk : List InvUpdate → Bool)
    (fp : Except Unit (List ShopifyProduct)) (limit : Option Nat)
    (transport : Nat → Except Unit AIResult) (st : MapperState)
    (create : List ChannelProduct → BulkResults)
    (fo : Except Unit (List Order)) (proc : Order → Except Unit Unit) :
    (fi = Except.error () →
      (sync_inventory fi bulk).failed = (sync_inventory fi bulk).total) ∧
    (fp = Except.error () →
      (sync_products fp limit transport st create).failed
        = (sync_products fp limit transport st create).total) ∧
    (fo = Except.error () →
      (sync_orders fo proc).failed = (sync_orders fo proc).total) ∧
    (sync_orders fo proc).success + (sync_orders fo proc).failed
      = (sync_orders fo proc).total := by
  refine ⟨?_, ?_, ?_, ?_⟩
  · intro h; subst h; rfl
  · intro h; subst h; rfl
  · intro h; subst h; rfl
  · cases fo with
    | error e => rfl
    | ok orders =>
      by_cases h : orders.isEmpty
      · have : orders = [] := List.isEmpty_iff.mp h
        subst this; rfl
      · have hfold := sync_orders_fold_counts proc orders 0 0
        simp [sync_orders, h]
        simpa using hfold

/-- Witness for C3: all three fetch oracles raising produce records with
`failed = total`, and a concrete order batch with one failing order keeps
`success + failed = total`. -/
theorem C3_witness :
    (sync_inventory (Except.error ()) (fun _ => true)).failed
      = (sync_inventory (Except.error ()) (fun _ => true)).total ∧
    (sync_products (Except.error ()) none failTransport ⟨false, none, 0⟩
      (fun _ => ⟨0, 0, []⟩)).failed
      = (sync_products (Except.error ()) none failTransport ⟨false, none, 0⟩
      (fun _ => ⟨0, 0, []⟩)).total ∧
    (sync_orders (Except.error ()) (fun _ => Except.ok ())).failed
      = (sync_orders (Except.error ()) (fun _ => Except.ok ())).total ∧
    (sync_orders (Except.ok [⟨"o1", []⟩, ⟨"o2", []⟩])
        (fun o => if o.order_id = "o2" then Except.error () else Except.ok ())).success
      + (sync_orders (Except.ok [⟨"o1", []⟩, ⟨"o2", []⟩])
        (fun o => if o.order_id = "o2" then Except.error () else Except.ok ())).failed
      = (sync_orders (Except.ok [⟨"o1", []⟩, ⟨"o2", []⟩])
        (fun o => if o.order_id = "o2" then Except.error () else Except.ok ())).total := by
  have h1 := C3_sync_operations_never_raise (Except.error ()) (fun _ => true)
    (Except.error ()) none failTransport ⟨false, none, 0⟩ (fun _ => ⟨0, 0, []⟩)
    (Except.error ()) (fun _ => Except.ok ())
  have h2 := C3_sync_operations_never_raise (Except.error ()) (fun _ => true)
    (Except.error ()) none failTransport ⟨false, none, 0⟩ (fun _ => ⟨0, 0, []⟩)
    (Except.ok [⟨"o1", []⟩, ⟨"o2", []⟩])
    (fun o => if o.order_id = "o2" then Except.error () else Except.ok ())
  exact ⟨h1.1 rfl, h1.2.1 rfl, h1.2.2.1 rfl, h2.2.2.2⟩

theorem cacheLookup_cacheInsert (c : List (KeyData × ChannelProduct))
    (k : KeyData) (v : ChannelProduct) (k₀ : KeyData) :
    cacheLookup (cacheInsert c k v) k₀
      = if k = k₀ then some v else cacheLookup c k₀ := by
  induction c with
  | nil => simp [cacheInsert, cacheLookup]
  | cons e rest ih =>
    obtain ⟨k', v'⟩ := e
    by_cases h : k' = k
    · subst h
      by_cases h0 : k' = k₀ <;> simp [cacheInsert, cacheLookup, h0]
    · by_cases h0 : k' = k₀
      · subst h0
        have hne : ¬ k = k' := fun hk => h hk.symm
        simp [cacheInsert, h, cacheLookup, hne]
      · simp [cacheInsert, h, cacheLookup, h0, ih]

/-- C5 (amended): whenever the fingerprint is present in the cache and
`use_cache` is set, `map_product` returns the cached ChannelProduct with
the state unchanged — in particular the AI transport is not consulted;
consequently, two `map_product` calls on same-fingerprint products with
`use_cache = true` consult the transport exactly once in total whenever
the first call's first AI attempt succeeds on a cache miss. (The original
claim's unconditional "at most once in total" fails when the first
mapping's AI call fails, because the fallback result is not cached — see
the counterexample.) -/
theorem C5_cache_hit_avoids_ai_call (transport : Nat → Except Unit AIResult)
    (p q : ShopifyProduct) :
    (∀ (st : MapperState) (c : List (KeyData × ChannelProduct)) (v : ChannelProduct),
      st.cache = some c → cacheLookup c (generate_cache_key p) = some v →
      map_product transport st p true = Except.ok (v, st)) ∧
    (∀ (st : MapperState) (r : AIResult),
      st.dry_run = false → cache_check st p true = none →
      generate_cache_key q = generate_cache_key p →
      transport st.calls = Except.ok r →
      totalTransportCalls transport st p q = 1) := by
  constructor
  · intro st c v hc hv
    have hcc : cache_check st p true = some v := by
      simp [cache_check, hc, hv]
    unfold map_product
    rw [hcc]
  · intro st r hdry hmiss hkey htr
    have hco : call_openai st.dry_run transport 3 st.calls = (Except.ok r, st.calls + 1) := by
      rw [hdry]
      simp [call_openai, callAttempts, htr]
    have h1 : map_product transport st p true =
        Except.ok (buildTiktokProduct p r,
          { st with
            calls := st.calls + 1
            cache := some (cacheInsert (st.cache.getD []) (generate_cache_key p)
              (buildTiktokProduct p r)) }) := by
      unfold map_product
      rw [hmiss, hco]
      rfl
    have h2 : cache_check
        { st with
          calls := st.calls + 1
          cache := some (cacheInsert (st.cache.getD []) (generate_cache_key p)
            (buildTiktokProduct p r)) } q true = some (buildTiktokProduct p r) := by
      simp [cache_check, hkey, cacheLookup_cacheInsert]
    have h3 : map_product transport
        { st with
          calls := st.calls + 1
          cache := some (cacheInsert (st.cache.getD []) (generate_cache_key p)
            (buildTiktokProduct p r)) } q true =
        Except.ok (buildTiktokProduct p r,
          { st with
            calls := st.calls + 1
            cache := some (cacheInsert (st.cache.getD []) (generate_cache_key p)
              (buildTiktokProduct p r)) }) := by
      unfold map_product
      rw [h2]
    simp only [totalTransportCalls, h1, h3]
    simp

/-- Witness for C5: with a transport succeeding at its first attempt,
mapping the same product twice from an empty-cache live state consults the
transport exactly once; and a pre-populated cache returns the cached value
untouched. -/
theorem C5_witness :
    map_product (fun _ => Except.ok cannedResult)
      ⟨false, some [(generate_cache_key sampleProduct, fallback_mapping sampleProduct)], 5⟩
      sampleProduct true
      = Except.ok (fallback_mapping sampleProduct,
          ⟨false, some [(generate_cache_key sampleProduct, fallback_mapping sampleProduct)], 5⟩) ∧
    totalTransportCalls (fun _ => Except.ok cannedResult) ⟨false, none, 0⟩
      sampleProduct sampleProduct = 1 := by
  have h := C5_cache_hit_avoids_ai_call (fun _ => Except.ok cannedResult)
    sampleProduct sampleProduct
  exact ⟨h.1 ⟨false, some [(generate_cache_key sampleProduct, fallback_mapping sampleProduct)], 5⟩
      [(generate_cache_key sampleProduct, fallback_mapping sampleProduct)]
      (fallback_mapping sampleProduct) rfl (by simp [cacheLookup]),
    h.2 ⟨false, none, 0⟩ cannedResult rfl rfl rfl rfl⟩

/-- Counterexample to C5 as stated: with a transport that always fails,
two `map_product` calls on the same product with `use_cache = true`
consult the AI transport 6 times (3 retry attempts per call, nothing
cached in between), refuting "invokes the AI transport at most once in
total". -/
theorem C5_counterexample :
    totalTransportCalls failTransport ⟨false, none, 0⟩ sampleProduct sampleProduct = 6 ∧
    ¬ (totalTransportCalls failTransport ⟨false, none, 0⟩ sampleProduct sampleProduct ≤ 1) := by
  constructor
  · rfl
  · intro h
    simp only [show totalTransportCalls failTransport ⟨false, none, 0⟩
      sampleProduct sampleProduct = 6 from rfl] at h
    omega

/-- C8 (amended): after `map_product(P, use_cache := true)` returns via a
successful AI mapping (or a cache hit), the cache contains an entry keyed
by `fingerprint(P)` whose value is the returned ChannelProduct; existing
entries are never removed or overwritten by `map_product` (with any
`use_cache` flag), so an entry disappears only through an explicit
`clear_cache`, which empties everything. (The original claim's "whether
via a successful AI mapping or via the fallback path" fails: the source
stores into the cache only on the AI success path, inside the `try`
block — see the counterexample.) -/
theorem C8_cache_entry_lifecycle (transport : Nat → Except Unit AIResult)
    (st : MapperState) (p : ShopifyProduct) :
    (∀ r n', call_openai st.dry_run transport 3 st.calls = (Except.ok r, n') →
      ∃ out st', map_product transport st p true = Except.ok (out, st') ∧
        cacheLookup (st'.cache.getD []) (generate_cache_key p) = some out) ∧
    (∀ (use_cache : Bool) (k : KeyData) (v out : ChannelProduct) (st' : MapperState),
      cacheLookup (st.cache.getD []) k = some v →
      map_product transport st p use_cache = Except.ok (out, st') →
      cacheLookup (st'.cache.getD []) k = some v) ∧
    (∀ k, cacheLookup ((clear_cache st).cache.getD []) k = none) := by
  refine ⟨?_, ?_, ?_⟩
  · intro r n' hco
    cases hcc : cache_check st p true with
    | some v =>
      refine ⟨v, st, ?_, ?_⟩
      · unfold map_product; rw [hcc]
      · simp only [cache_check, if_pos rfl] at hcc
        obtain ⟨c, hc1, hc2⟩ := Option.bind_eq_some.mp hcc
        simp [hc1, hc2]
    | none =>
      refine ⟨buildTiktokProduct p r,
        { st with
          calls := n'
          cache := some (cacheInsert (st.cache.getD []) (generate_cache_key p)
            (buildTiktokProduct p r)) }, ?_, ?_⟩
      · unfold map_product; rw [hcc, hco]; rfl
      · simp [cacheLookup_cacheInsert]
  · intro uc k v out st' hv hmp
    unfold map_product at hmp
    cases hcc : cache_check st p uc with
    | some w =>
      rw [hcc] at hmp
      simp only [Except.ok.injEq, Prod.mk.injEq] at hmp
      rw [← hmp.2]
      exact hv
    | none =>
      rw [hcc] at hmp
      cases hco : call_openai st.dry_run transport 3 st.calls with
      | mk res n' =>
        rw [hco] at hmp
        cases res with
        | error e =>
          simp only [Except.ok.injEq, Prod.mk.injEq] at hmp
          rw [← hmp.2]
          exact hv
        | ok ai =>
          simp only [Except.ok.injEq, Prod.mk.injEq] at hmp
          rw [← hmp.2]
          cases uc with
          | false => simpa using hv
          | true =>
            show cacheLookup (cacheInsert (st.cache.getD []) (generate_cache_key p)
              (buildTiktokProduct p ai)) k = some v
            rw [cacheLookup_cacheInsert]
            by_cases hk : generate_cache_key p = k
            · exfalso
              cases hcs : st.cache with
              | none => rw [hcs] at hv; simp [cacheLookup] at hv
              | some c =>
                rw [hcs] at hv
                simp only [Option.getD_some] at hv
                have hcc' : cacheLookup c (generate_cache_key p) = none := by
                  simpa [cache_check, hcs] using hcc
                rw [hk, hv] at hcc'
                exact Option.noConfusion hcc'
            · rw [if_neg hk]
              exact hv
  · intro k
    obtain ⟨d, c, n⟩ := st
    cases c <;> simp [clear_cache, cacheLookup]

/-- Witness for C8: a dry-run mapping (AI call succeeds with the canned
result) leaves the returned product cached under the product's
fingerprint; a pre-existing entry for a different product survives a
live fallback mapping; and `clear_cache` empties everything. -/
theorem C8_witness :
    (∃ out st', map_product failTransport dryState sampleProduct true
        = Except.ok (out, st') ∧
      cacheLookup (st'.cache.getD []) (generate_cache_key sampleProduct) = some out) ∧
    cacheLookup
      ((fun r => match r with
        | Except.ok (_, st') => st'.cache.getD []
        | Except.error _ => [])
        (map_product failTransport
          ⟨false, some [(generate_cache_key p_y2k, fallback_mapping p_y2k)], 0⟩
          sampleProduct true))
      (generate_cache_key p_y2k) = some (fallback_mapping p_y2k) ∧
    cacheLookup ((clear_cache
      ⟨false, some [(generate_cache_key p_y2k, fallback_mapping p_y2k)], 0⟩).cache.getD [])
      (generate_cache_key p_y2k) = none := by
  refine ⟨(C8_cache_entry_lifecycle failTransport dryState sampleProduct).1
      cannedResult 0 rfl, ?_, ?_⟩
  · exact (C8_cache_entry_lifecycle failTransport
      ⟨false, some [(generate_cache_key p_y2k, fallback_mapping p_y2k)], 0⟩
      sampleProduct).2.1 true (generate_cache_key p_y2k) (fallback_mapping p_y2k)
      (fallback_mapping sampleProduct) ⟨false, some [(generate_cache_key p_y2k, fallback_mapping p_y2k)], 3⟩
      (by simp [cacheLookup]) rfl
  · exact (C8_cache_entry_lifecycle failTransport
      ⟨false, some [(generate_cache_key p_y2k, fallback_mapping p_y2k)], 0⟩
      sampleProduct).2.2 (generate_cache_key p_y2k)

/-- Counterexample to C8 as stated: a `map_product` call that returns via
the fallback path (AI transport failing throughout) leaves no cache entry
under the product's fingerprint — the source caches only on the AI
success path. -/
theorem C8_counterexample :
    map_product failTransport ⟨false, none, 0⟩ sampleProduct true
      = Except.ok (fallback_mapping sampleProduct, ⟨false, none, 3⟩) ∧
    cache_after_map failTransport ⟨false, none, 0⟩ sampleProduct true = none :=
  ⟨rfl, rfl⟩

theorem tiktokRetryGo_always_fail {α : Type} (op : Nat → Except PyErr α)
    (e : PyErr) (h : ∀ n, op n = Except.error e) :
    ∀ fuel k, 0 < fuel → tiktokRetryGo op fuel k = (Except.error e, k + fuel) := by
  intro fuel
  induction fuel with
  | zero => intro k hk; exact absurd hk (Nat.lt_irrefl 0)
  | succ f ih =>
    intro k _
    by_cases h0 : f = 0
    · subst h0
      simp [tiktokRetryGo, h k]
    · have hrec := ih (k + 1) (Nat.pos_of_ne_zero h0)
      simp only [tiktokRetryGo, h k, h0, if_false, hrec]
      rw [Prod.mk.injEq]
      exact ⟨rfl, by omega⟩

/-- C7 (amended): the two retry wrappers treat authentication failures
differently. The Shopify (upstream) wrapper invokes a call that fails with
a `ValueError` or an HTTP 401/403 exactly once and propagates the error
unchanged, and its request layer classifies an HTTP 401/403 as a
`ValueError` (an authentication/configuration error, not a generic
transient one). The TikTok (downstream) wrapper has no such short-circuit:
a call that keeps failing — with any error, a 401-equivalent included — is
invoked exactly `MAX_RETRIES` times before the error propagates, still
carrying its original (unclassified) form. (The original claim asserts the
once-only behaviour for both wrappers; the TikTok side refutes it — see
the counterexample.) -/
theorem C7_auth_error_short_circuit {α : Type} (op : Nat → Except PyErr α)
    (max_retries : Nat) (hmr : 0 < max_retries) :
    (op 0 = Except.error PyErr.valueError →
      shopify_retry_request op max_retries = (Except.error PyErr.valueError, 1)) ∧
    (∀ s, (s = 401 ∨ s = 403) → op 0 = Except.error (PyErr.httpError s) →
      shopify_retry_request op max_retries = (Except.error (PyErr.httpError s), 1)) ∧
    (∀ s, (s = 401 ∨ s = 403) →
      shopifyClassifyResponse (Except.error (PyErr.httpError s) : Except PyErr α)
        = Except.error PyErr.valueError) ∧
    (∀ e, (∀ n, op n = Except.error e) →
      tiktok_retry_request op max_retries = (Except.error e, max_retries)) := by
  obtain ⟨m, rfl⟩ : ∃ m, max_retries = m + 1 :=
    ⟨max_retries - 1, (Nat.succ_pred_eq_of_pos hmr).symm⟩
  refine ⟨?_, ?_, ?_, ?_⟩
  · intro h
    simp [shopify_retry_request, shopifyRetryGo, h]
  · intro s hs h
    rcases hs with hs | hs <;> subst hs <;>
      simp [shopify_retry_request, shopifyRetryGo, h]
  · intro s hs
    rcases hs with hs | hs <;> subst hs <;> simp [shopifyClassifyResponse]
  · intro e h
    have := tiktokRetryGo_always_fail op e h (m + 1) 0 (Nat.succ_pos m)
    simpa [tiktok_retry_request] using this

/-- Witness for C7: a transport failing with HTTP 401 on every attempt is
invoked once by the Shopify wrapper, is classified as a `ValueError` by
the Shopify request layer, and is invoked 3 times (`MAX_RETRIES`) by the
TikTok wrapper. -/
theorem C7_witness :
    shopify_retry_request (fun _ => (Except.error (PyErr.httpError 401) : Except PyErr Unit)) 3
      = (Except.error (PyErr.httpError 401), 1) ∧
    shopifyClassifyResponse (Except.error (PyErr.httpError 401) : Except PyErr Unit)
      = Except.error PyErr.valueError ∧
    tiktok_retry_request (fun _ => (Except.error (PyErr.httpError 401) : Except PyErr Unit)) 3
      = (Except.error (PyErr.httpError 401), 3) := by
  have h := C7_auth_error_short_circuit
    (fun _ => (Except.error (PyErr.httpError 401) : Except PyErr Unit)) 3 (by decide)
  exact ⟨h.2.1 401 (Or.inl rfl) rfl, h.2.2.1 401 (Or.inl rfl),
    h.2.2.2 (PyErr.httpError 401) (fun _ => rfl)⟩

/-- Counterexample to C7 as stated: the TikTok handler's retry wrapper
invokes a call failing with an HTTP 401-equivalent 3 times (the
`MAX_RETRIES` default), not exactly once, and the propagated error is the
raw HTTP error, not an authentication/configuration classification. -/
theorem C7_counterexample :
    (tiktok_retry_request (fun _ => (Except.error (PyErr.httpError 401) : Except PyErr Unit)) 3).2
      = 3 ∧
    ¬ ((tiktok_retry_request (fun _ => (Except.error (PyErr.httpError 401) : Except PyErr Unit)) 3).2
      = 1) ∧
    (tiktok_retry_request (fun _ => (Except.error (PyErr.httpError 401) : Except PyErr Unit)) 3).1
      = Except.error (PyErr.httpError 401) := by
  refine ⟨rfl, ?_, rfl⟩
  intro h
  rw [show (tiktok_retry_request
    (fun _ => (Except.error (PyErr.httpError 401) : Except PyErr Unit)) 3).2 = 3 from rfl] at h
  exact absurd h (by decide)

/-- C9 (amended): in dry-run mode, `batch_map_products` on the two-product
batch (one tagged `["y2k", "trend"]`, one untagged) returns exactly 2
ChannelProducts in input order, and — for any transport, which dry-run
never consults — BOTH carry the canned dry-run hashtag list
`["#fashion", "#trending", "#y2k"]`. Product 2 does not carry the default
hashtag set: the canned AI result always succeeds in dry-run, so the
fallback (the only producer of the default set) is never taken. (The
original claim asserts the default set for the untagged product — see the
counterexample.) -/
theorem C9_dry_run_batch_canned (transport : Nat → Except Unit AIResult) :
    (batch_map_products transport dryState [p_y2k, p_notags] true).1.length = 2 ∧
    ((batch_map_products transport dryState [p_y2k, p_notags] true).1.map
      (fun c => c.hashtags))
      = [["#fashion", "#trending", "#y2k"], ["#fashion", "#trending", "#y2k"]] ∧
    ((batch_map_products transport dryState [p_y2k, p_notags] true).1.map
      (fun c => c.shopify_id)) = [p_y2k.id, p_notags.id] :=
  ⟨rfl, rfl, rfl⟩

/-- Counterexample to C9 as stated: in the dry-run two-product batch, the
untagged product's result carries the canned hashtags, not the default
hashtag set `#TikTokMadeMeBuyIt #Trending #ShopNow`. -/
theorem C9_counterexample :
    ((batch_map_products failTransport dryState [p_y2k, p_notags] true).1.map
      (fun c => c.hashtags))[1]? = some ["#fashion", "#trending", "#y2k"] ∧
    ¬ (((batch_map_products failTransport dryState [p_y2k, p_notags] true).1.map
      (fun c => c.hashtags))[1]? = some defaultHashtags) :=
  ⟨rfl, by decide⟩

/-- C10: with absent or malformed channel credentials the handler is in
mock mode, where `bulk_create_products` reports every input product as a
success (failed 0) with a synthetic id list of the same length, regardless
of content; consequently `sync_products` (fetch succeeding, pushing
through the mock handler) reports `success = total` and `failed = 0`. -/
theorem C10_mock_mode_full_success (app_key : String)
    (h : app_key = "" ∨ app_key.startsWith "app_" = false)
    (dry_run : Bool) (bs : Nat) (respond : Nat → Except Unit CreateResponse)
    (products : List ChannelProduct) (transport : Nat → Except Unit AIResult)
    (st : MapperState) (fetched : List ShopifyProduct) :
    handler_mock_mode app_key = true ∧
    bulk_create_products (handler_mock_mode app_key) dry_run bs respond products
      = ({ success := products.length, failed := 0,
           product_ids := mockIds products.length }, []) ∧
    (mockIds products.length).length = products.length ∧
    (sync_products (Except.ok fetched) none transport st
      (fun tps => (bulk_create_products (handler_mock_mode app_key) dry_run bs respond tps).1)).success
      = (sync_products (Except.ok fetched) none transport st
      (fun tps => (bulk_create_products (handler_mock_mode app_key) dry_run bs respond tps).1)).total ∧
    (sync_products (Except.ok fetched) none transport st
      (fun tps => (bulk_create_products (handler_mock_mode app_key) dry_run bs respond tps).1)).failed
      = 0 := by
  have hmock : handler_mock_mode app_key = true := by
    rcases h with h | h <;> simp [handler_mock_mode, config_mock_mode, h]
  have hbulk : ∀ ps : List ChannelProduct,
      bulk_create_products (handler_mock_mode app_key) dry_run bs respond ps
        = ({ success := ps.length, failed := 0, product_ids := mockIds ps.length }, []) := by
    intro ps
    rw [hmock]
    simp [bulk_create_products]
  refine ⟨hmock, hbulk products, by simp [mockIds], ?_, ?_⟩
  · by_cases he : fetched.isEmpty
    · simp [sync_products, he, List.isEmpty_iff.mp he]
    · simp only [sync_products, he, Bool.false_eq_true, if_false, hbulk]
      exact batch_map_go_length _ st fetched
  · by_cases he : fetched.isEmpty
    · simp [sync_products, he]
    · simp only [sync_products, he, Bool.false_eq_true, if_false, hbulk]

/-- Witness for C10 at an empty app key, one product and a one-product
fetch. -/
theorem C10_witness :
    handler_mock_mode "" = true ∧
    bulk_create_products (handler_mock_mode "") false 100 (fun _ => Except.error ())
      [⟨"t", "d", [], [], [], "1", "h"⟩]
      = ({ success := 1, failed := 0, product_ids := mockIds 1 }, []) ∧
    (sync_products (Except.ok [sampleProduct]) none failTransport ⟨false, none, 0⟩
      (fun tps => (bulk_create_products (handler_mock_mode "") false 100
        (fun _ => Except.error ()) tps).1)).success
      = (sync_products (Except.ok [sampleProduct]) none failTransport ⟨false, none, 0⟩
      (fun tps => (bulk_create_products (handler_mock_mode "") false 100
        (fun _ => Except.error ()) tps).1)).total ∧
    (sync_products (Except.ok [sampleProduct]) none failTransport ⟨false, none, 0⟩
      (fun tps => (bulk_create_products (handler_mock_mode "") false 100
        (fun _ => Except.error ()) tps).1)).failed = 0 := by
  have h := C10_mock_mode_full_success "" (Or.inl rfl) false 100 (fun _ => Except.error ())
    [⟨"t", "d", [], [], [], "1", "h"⟩] failTransport ⟨false, none, 0⟩ [sampleProduct]
  exact ⟨h.1, h.2.1, h.2.2.2.1, h.2.2.2.2⟩

end ShopifyTiktokAI
